import Mathlib

/-!
Shallow embedding of the finKits repository (files `liq_model.py` and `api.py`)
and verification of its specification.

Modelling conventions:
* numpy float arrays become `List ℝ`; elementwise numpy operations become
  `List.map` / `List.zipWith`; the slice `xs[:-1]` is `xs.dropLast`, `xs[1:]`
  is `xs.tail`, `xs[i:i+w]` is `(xs.drop i).take w`.
* IEEE NaN is modelled explicitly by `Option ℝ` (`none` = NaN); real-valued
  intermediate arithmetic that is defined on the considered inputs stays in `ℝ`.
* a raised Python `ValueError` becomes `Except.error` carrying the message.
* functions in which a result variable may be left unassigned (string dispatch
  on the option type with no `else` branch, an `UnboundLocalError` at return
  time) return `Option ℝ`, `none` marking the unassigned-variable error.
-/

namespace LiquidityEstimator

/-- Source constant `TOL = 1e-9` of class `LiquidityEstimator` ("TOL is
considered as zero"). -/
noncomputable def TOL : ℝ := 1e-9

/-- Model of `np.nanmean` on a list of (NaN-free) reals: the mean, or NaN
(`none`) when the list is empty. In this embedding every element of the lists
fed to `nanmean` is an actual real number, so the NaN-filtering aspect of
`np.nanmean` is vacuous and only the empty-input NaN remains. -/
noncomputable def nanmean (xs : List ℝ) : Option ℝ :=
  if xs.isEmpty then none else some (xs.sum / xs.length)

/-- Embedding of `LiquidityEstimator.abdi_ranaldo_estimator` (liq_model.py
lines 12-29): log prices, midpoints `beta`, two-day corrected terms
`AR_i = 4*(log_closes[:-1] - beta[:-1]) * (log_closes[:-1] - beta[1:])`,
clamp to `≥ 0`, square root, and the mean guarded by `if len(AR_i) > 0 else 0`. -/
noncomputable def abdi_ranaldo_estimator (highs lows closes : List ℝ) : ℝ :=
  let log_highs := highs.map Real.log
  let log_lows := lows.map Real.log
  let log_closes := closes.map Real.log
  let beta := List.zipWith (fun a b => (a + b) / 2) log_highs log_lows
  let AR1 := List.zipWith (fun c b0 => c - b0) log_closes.dropLast beta.dropLast
  let AR2 := List.zipWith (fun c b1 => c - b1) log_closes.dropLast beta.tail
  let AR := List.zipWith (fun p q => 4 * p * q) AR1 AR2
  let ARs := AR.map (fun x => Real.sqrt (max x 0))
  if 0 < ARs.length then ARs.sum / (ARs.length : ℝ) else 0

/-- Embedding of `LiquidityEstimator.abdi_ranaldo_estimator_window`
(liq_model.py lines 31-52): shape validation, positive-window validation,
all-NaN output when `n_ts <= window`, otherwise `window-1` NaN paddings
followed by the point estimator applied to each width-`window` slice. -/
noncomputable def abdi_ranaldo_estimator_window
    (highs lows closes : List ℝ) (window : ℤ) :
    Except String (List (Option ℝ)) :=
  if ¬(highs.length = lows.length ∧ lows.length = closes.length) then
    Except.error "Input arrays must have the same shape"
  else if window ≤ 0 then
    Except.error "Window size must be a positive integer"
  else
    let n_ts := highs.length
    if (n_ts : ℤ) ≤ window then Except.ok (List.replicate n_ts none)
    else
      let w := window.toNat
      Except.ok (List.replicate (w - 1) none ++
        (List.range (n_ts - w + 1)).map (fun i =>
          some (abdi_ranaldo_estimator
            ((highs.drop i).take w) ((lows.drop i).take w) ((closes.drop i).take w))))

/-- Embedding of `LiquidityEstimator.corwin_schultz_estimator` (liq_model.py
lines 54-78): lows offset by `TOL`, adjacent-pair highs/lows, `beta`, `gamma`,
`d0 = 3 - 2*2**.5`, `alpha`, the proxy `2*(exp(alpha)-1)/(1+exp(alpha))`,
the `np.where(CS_adjs < 0, 0, CS_adjs)` clamp, and `np.nanmean`. -/
noncomputable def corwin_schultz_estimator (highs0 lows0 : List ℝ) : Option ℝ :=
  let highs := highs0
  let lows := lows0.map (fun x => x + TOL)
  let high_adjs := List.zipWith max highs.dropLast highs.tail
  let low_adjs := (List.zipWith min lows.dropLast lows.tail).map (fun x => x + TOL)
  let beta := List.zipWith (fun b0 b1 => b0 + b1)
    (List.zipWith (fun h l => Real.log (h / l) ^ 2) highs.dropLast lows.dropLast)
    (List.zipWith (fun h l => Real.log (h / l) ^ 2) highs.tail lows.tail)
  let gamma := List.zipWith (fun h l => Real.log (h / l) ^ 2) high_adjs low_adjs
  let d0 : ℝ := 3 - 2 * Real.sqrt 2
  let alpha := List.zipWith
    (fun b g => (Real.sqrt (2 * b) - Real.sqrt b) / d0 - Real.sqrt (g / d0)) beta gamma
  let CS_adjs := alpha.map (fun a => 2 * (Real.exp a - 1) / (1 + Real.exp a))
  let CS_clamped := CS_adjs.map (fun c => if c < 0 then 0 else c)
  nanmean CS_clamped

/-- Embedding of `LiquidityEstimator.corwin_schultz_estimator_window`
(liq_model.py lines 80-100): shape validation, positive-window validation,
all-NaN output when `n_ts <= window`, otherwise `window-1` NaN paddings
followed by the point estimator applied to each width-`window` slice (the
point estimator itself returns an optional value, `none` being NaN). -/
noncomputable def corwin_schultz_estimator_window
    (highs lows : List ℝ) (window : ℤ) :
    Except String (List (Option ℝ)) :=
  if ¬(highs.length = lows.length) then
    Except.error "Input arrays must have the same shape"
  else if window ≤ 0 then
    Except.error "Window size must be a positive integer"
  else
    let n_ts := highs.length
    if (n_ts : ℤ) ≤ window then Except.ok (List.replicate n_ts none)
    else
      let w := window.toNat
      Except.ok (List.replicate (w - 1) none ++
        (List.range (n_ts - w + 1)).map (fun i =>
          corwin_schultz_estimator ((highs.drop i).take w) ((lows.drop i).take w)))

end LiquidityEstimator

namespace BlackScholes

open MeasureTheory

/-- Embedding of `scipy.stats.norm.pdf` (class attribute `Np` of
`BlackScholes` in api.py): the standard normal density. -/
noncomputable def Np (x : ℝ) : ℝ := ProbabilityTheory.gaussianPDFReal 0 1 x

/-- Embedding of `scipy.stats.norm.cdf` (class attribute `Nc` of
`BlackScholes` in api.py): the standard normal cumulative distribution
function, the integral of the density over `(-∞, x]`. -/
noncomputable def Nc (x : ℝ) : ℝ := ∫ t in Set.Iic x, Np t

/-- The intermediate term `d1 = (np.log(S / K) + (R + sigma ** 2 / 2) * T) /
(sigma * np.sqrt(T))` computed identically at the top of `price`, `delta`,
`gamma`, `vega`, `theta` and `rho` in api.py. -/
noncomputable def d1 (S K T R sigma : ℝ) : ℝ :=
  (Real.log (S / K) + (R + sigma ^ 2 / 2) * T) / (sigma * Real.sqrt T)

/-- The intermediate term `d2 = d1 - sigma * np.sqrt(T)` of api.py. -/
noncomputable def d2 (S K T R sigma : ℝ) : ℝ :=
  d1 S K T R sigma - sigma * Real.sqrt T

/-- Embedding of `BlackScholes.price` (api.py lines 28-35). The source
assigns `price` only under `option_type == "C"` or `option_type == "P"`;
any other tag leaves the variable unassigned and the trailing
`return price` raises `UnboundLocalError`, modelled as `none`. -/
noncomputable def price (S K T R sigma : ℝ) (option_type : String) : Option ℝ :=
  if option_type = "C" then
    some (S * Nc (d1 S K T R sigma) - K * Real.exp (-R * T) * Nc (d2 S K T R sigma))
  else if option_type = "P" then
    some (K * Real.exp (-R * T) * Nc (-d2 S K T R sigma) - S * Nc (-d1 S K T R sigma))
  else none

/-- Embedding of `BlackScholes.delta` (api.py lines 37-46). -/
noncomputable def delta (S K T R sigma : ℝ) (option_type : String) : Option ℝ :=
  if option_type = "C" then some (Nc (d1 S K T R sigma))
  else if option_type = "P" then some (Nc (d1 S K T R sigma) - 1)
  else none

/-- Embedding of `BlackScholes.gamma` (api.py lines 48-54):
`Np(d1) / (S * sigma * np.sqrt(T))`, with no branch on the option type and
no guard against a zero denominator. -/
noncomputable def gamma (S K T R sigma : ℝ) : ℝ :=
  Np (d1 S K T R sigma) / (S * sigma * Real.sqrt T)

/-- Embedding of `BlackScholes.vega` (api.py lines 56-62):
`S * Np(d1) * np.sqrt(T)`, scaled by `0.01` at return. -/
noncomputable def vega (S K T R sigma : ℝ) : ℝ :=
  S * Np (d1 S K T R sigma) * Real.sqrt T * 0.01

/-- Embedding of `BlackScholes.theta` (api.py lines 64-74), divided by 365
at return; unassigned on an unknown option tag (`none`). -/
noncomputable def theta (S K T R sigma : ℝ) (option_type : String) : Option ℝ :=
  if option_type = "C" then
    some ((-S * Np (d1 S K T R sigma) * sigma / (2 * Real.sqrt T)
      - R * K * Real.exp (-R * T) * Nc (d2 S K T R sigma)) / 365)
  else if option_type = "P" then
    some ((-S * Np (d1 S K T R sigma) * sigma / (2 * Real.sqrt T)
      + R * K * Real.exp (-R * T) * Nc (-d2 S K T R sigma)) / 365)
  else none

/-- Embedding of `BlackScholes.rho` (api.py lines 76-86), scaled by `0.01`
at return; unassigned on an unknown option tag (`none`). -/
noncomputable def rho (S K T R sigma : ℝ) (option_type : String) : Option ℝ :=
  if option_type = "C" then
    some (K * T * Real.exp (-R * T) * Nc (d2 S K T R sigma) * 0.01)
  else if option_type = "P" then
    some (-K * T * Real.exp (-R * T) * Nc (-d2 S K T R sigma) * 0.01)
  else none

/-- Embedding of `BlackScholes.option_value_expiry` (api.py lines 88-96):
intrinsic value at expiry scaled by contract size; unassigned on an unknown
option tag (`none`). -/
noncomputable def option_value_expiry (S K size : ℝ) (option_type : String) : Option ℝ :=
  if option_type = "C" then some (max 0 (S - K) * size)
  else if option_type = "P" then some (max 0 (K - S) * size)
  else none

end BlackScholes

/-- Whether an `Except` result is a success (`ok`), i.e. the modelled Python
call returned normally instead of raising. -/
def exceptOk {α β : Type} : Except α β → Bool
  | Except.ok _ => true
  | Except.error _ => false

section Claims

open LiquidityEstimator MeasureTheory

/-- C3: for equal-length inputs and positive window size, when the series
length is at most the window size both rolling-window runners return (without
raising) a sequence of the input's length in which every entry is NaN. -/
theorem C3_insufficient_history_all_nan
    (highs lows closes : List ℝ) (window : ℤ)
    (hl : highs.length = lows.length) (hc : lows.length = closes.length)
    (hw : 0 < window) (hn : (highs.length : ℤ) ≤ window) :
    abdi_ranaldo_estimator_window highs lows closes window
      = Except.ok (List.replicate highs.length none) ∧
    corwin_schultz_estimator_window highs lows window
      = Except.ok (List.replicate highs.length none) := by
  constructor
  · simp only [abdi_ranaldo_estimator_window]
    rw [if_neg (not_not.mpr ⟨hl, hc⟩), if_neg (by omega), if_pos hn]
  · simp only [corwin_schultz_estimator_window]
    rw [if_neg (not_not.mpr hl), if_neg (by omega), if_pos hn]

/-- Closed instance of `C3_insufficient_history_all_nan` at a concrete input
(three observations, window 5). -/
theorem C3_insufficient_history_all_nan_witness :
    abdi_ranaldo_estimator_window [1, 2, 3] [1, 2, 3] [1, 2, 3] 5
      = Except.ok (List.replicate 3 none) ∧
    corwin_schultz_estimator_window [1, 2, 3] [1, 2, 3] 5
      = Except.ok (List.replicate 3 none) :=
  C3_insufficient_history_all_nan [1, 2, 3] [1, 2, 3] [1, 2, 3] 5 rfl rfl
    (by decide) (by decide)

/-- C4: each rolling-window runner raises `ValueError` exactly on invalid
input: mismatched lengths give the shape error (checked first), a
non-positive window on matching lengths gives the window error, and on
equal-length inputs with a positive window no error is raised. -/
theorem C4_validation_errors (highs lows closes : List ℝ) (window : ℤ) :
    (¬(highs.length = lows.length ∧ lows.length = closes.length) →
      abdi_ranaldo_estimator_window highs lows closes window
        = Except.error "Input arrays must have the same shape") ∧
    (highs.length = lows.length → lows.length = closes.length → window ≤ 0 →
      abdi_ranaldo_estimator_window highs lows closes window
        = Except.error "Window size must be a positive integer") ∧
    (highs.length = lows.length → lows.length = closes.length → 0 < window →
      exceptOk (abdi_ranaldo_estimator_window highs lows closes window) = true) ∧
    (¬(highs.length = lows.length) →
      corwin_schultz_estimator_window highs lows window
        = Except.error "Input arrays must have the same shape") ∧
    (highs.length = lows.length → window ≤ 0 →
      corwin_schultz_estimator_window highs lows window
        = Except.error "Window size must be a positive integer") ∧
    (highs.length = lows.length → 0 < window →
      exceptOk (corwin_schultz_estimator_window highs lows window) = true) := by
  refine ⟨?_, ?_, ?_, ?_, ?_, ?_⟩
  · intro h
    simp only [abdi_ranaldo_estimator_window]
    rw [if_pos h]
  · intro h1 h2 h3
    simp only [abdi_ranaldo_estimator_window]
    rw [if_neg (not_not.mpr ⟨h1, h2⟩), if_pos h3]
  · intro h1 h2 h3
    simp only [abdi_ranaldo_estimator_window]
    rw [if_neg (not_not.mpr ⟨h1, h2⟩), if_neg (by omega)]
    split <;> rfl
  · intro h
    simp only [corwin_schultz_estimator_window]
    rw [if_pos h]
  · intro h1 h2
    simp only [corwin_schultz_estimator_window]
    rw [if_neg (not_not.mpr h1), if_pos h2]
  · intro h1 h2
    simp only [corwin_schultz_estimator_window]
    rw [if_neg (not_not.mpr h1), if_neg (by omega)]
    split <;> rfl

/-- Closed instance of `C4_validation_errors`: mismatched lengths raise the
shape error, a non-positive window raises the window error, and a valid call
does not raise. -/
theorem C4_validation_errors_witness :
    abdi_ranaldo_estimator_window [1] [1, 2] [1] 3
      = Except.error "Input arrays must have the same shape" ∧
    corwin_schultz_estimator_window [1, 2] [1, 2] 0
      = Except.error "Window size must be a positive integer" ∧
    exceptOk (corwin_schultz_estimator_window [1, 2] [1, 2] 1) = true :=
  ⟨(C4_validation_errors [1] [1, 2] [1] 3).1 (by simp),
   (C4_validation_errors [1, 2] [1, 2] [1, 2] 0).2.2.2.2.1 rfl (by decide),
   (C4_validation_errors [1, 2] [1, 2] [1, 2] 1).2.2.2.2.2 rfl (by decide)⟩

/-- C9: on equal-length inputs with fewer than two observations, the
Corwin-Schultz point estimator returns NaN (`none`, the mean of an empty list
of adjacent pairs) without raising, whereas the Abdi-Ranaldo point estimator
returns 0 on the same lengths. -/
theorem C9_short_input_nan_vs_zero (highs lows closes : List ℝ)
    (hl : highs.length = lows.length) (hc : lows.length = closes.length)
    (hn : highs.length < 2) :
    corwin_schultz_estimator highs lows = none ∧
    abdi_ranaldo_estimator highs lows closes = 0 := by
  obtain _ | ⟨a, _ | ⟨b, t⟩⟩ := highs
  · obtain rfl : lows = [] := List.length_eq_zero.mp hl.symm
    obtain rfl : closes = [] := List.length_eq_zero.mp hc.symm
    exact ⟨rfl, rfl⟩
  · obtain ⟨l, rfl⟩ : ∃ l, lows = [l] := List.length_eq_one.mp hl.symm
    obtain ⟨c, rfl⟩ : ∃ c, closes = [c] := List.length_eq_one.mp hc.symm
    exact ⟨rfl, rfl⟩
  · simp at hn
    omega

/-- Closed instance of `C9_short_input_nan_vs_zero` on singleton inputs. -/
theorem C9_short_input_nan_vs_zero_witness :
    corwin_schultz_estimator [1] [1] = none ∧
    abdi_ranaldo_estimator [1] [1] [1] = 0 :=
  C9_short_input_nan_vs_zero [1] [1] [1] rfl rfl (by decide)

/-- On inputs in which some series has fewer than two entries, the internal
list of two-day corrected terms of the Abdi-Ranaldo estimator is empty and
the guarded mean returns 0. -/
theorem abdi_ranaldo_eq_zero_of_short (highs lows closes : List ℝ)
    (h : highs.length < 2 ∨ lows.length < 2 ∨ closes.length < 2) :
    abdi_ranaldo_estimator highs lows closes = 0 := by
  simp only [abdi_ranaldo_estimator]
  rw [if_neg (by
    simp only [List.length_map, List.length_zipWith, List.length_dropLast,
      List.length_tail]
    omega)]

/-- C2: on equal-length inputs of length n >= 2 the Abdi-Ranaldo estimator is
the mean over i = 0..n-2 of sqrt(max(0, 4*(ln close_i - beta_i)*(ln close_i -
beta_(i+1)))) with beta_i = (ln high_i + ln low_i)/2, and on fewer than two
observations it is 0. -/
theorem C2_abdi_ranaldo_formula (highs lows closes : List ℝ)
    (hl : lows.length = highs.length) (hc : closes.length = highs.length) :
    (2 ≤ highs.length →
      abdi_ranaldo_estimator highs lows closes =
        ((List.range (highs.length - 1)).map (fun i =>
          Real.sqrt (max 0 (4 * (Real.log (closes.getD i 0)
              - (Real.log (highs.getD i 0) + Real.log (lows.getD i 0)) / 2)
            * (Real.log (closes.getD i 0)
              - (Real.log (highs.getD (i + 1) 0)
                + Real.log (lows.getD (i + 1) 0)) / 2))))).sum
          / ((highs.length - 1 : ℕ) : ℝ)) ∧
    (highs.length < 2 → abdi_ranaldo_estimator highs lows closes = 0) := by
  constructor
  · intro hn2
    simp only [abdi_ranaldo_estimator]
    rw [if_pos (by
      simp only [List.length_map, List.length_zipWith, List.length_dropLast,
        List.length_tail]
      omega)]
    have hEq : (List.zipWith (fun p q => 4 * p * q)
        (List.zipWith (fun c b0 => c - b0)
          (closes.map Real.log).dropLast
          (List.zipWith (fun a b => (a + b) / 2)
            (highs.map Real.log) (lows.map Real.log)).dropLast)
        (List.zipWith (fun c b1 => c - b1)
          (closes.map Real.log).dropLast
          (List.zipWith (fun a b => (a + b) / 2)
            (highs.map Real.log) (lows.map Real.log)).tail)).map
          (fun x => Real.sqrt (max x 0))
        = (List.range (highs.length - 1)).map (fun i =>
          Real.sqrt (max 0 (4 * (Real.log (closes.getD i 0)
              - (Real.log (highs.getD i 0) + Real.log (lows.getD i 0)) / 2)
            * (Real.log (closes.getD i 0)
              - (Real.log (highs.getD (i + 1) 0)
                + Real.log (lows.getD (i + 1) 0)) / 2)))) := by
      apply List.ext_getElem
      · simp only [List.length_map, List.length_zipWith, List.length_dropLast,
          List.length_tail, List.length_range]
        omega
      · intro i h1 h2
        have hi : i < highs.length - 1 := by
          simpa only [List.length_map, List.length_zipWith,
            List.length_dropLast, List.length_tail, List.length_range] using h2
        simp only [List.getElem_map, List.getElem_zipWith,
          List.getElem_dropLast, List.getElem_tail, List.getElem_range]
        rw [List.getD_eq_getElem closes 0 (by omega),
          List.getD_eq_getElem highs 0 (by omega),
          List.getD_eq_getElem lows 0 (by omega),
          List.getD_eq_getElem highs 0 (by omega),
          List.getD_eq_getElem lows 0 (by omega),
          max_comm]
    rw [hEq]
    simp only [List.length_map, List.length_range]
  · intro hn2
    exact abdi_ranaldo_eq_zero_of_short highs lows closes (Or.inl hn2)

/-- Closed instance of `C2_abdi_ranaldo_formula` on a two-point series. -/
theorem C2_abdi_ranaldo_formula_witness :
    abdi_ranaldo_estimator [1, 2] [1, 2] [1, 2] =
      ((List.range 1).map (fun i =>
        Real.sqrt (max 0 (4 * (Real.log ([(1 : ℝ), 2].getD i 0)
            - (Real.log ([(1 : ℝ), 2].getD i 0)
              + Real.log ([(1 : ℝ), 2].getD i 0)) / 2)
          * (Real.log ([(1 : ℝ), 2].getD i 0)
            - (Real.log ([(1 : ℝ), 2].getD (i + 1) 0)
              + Real.log ([(1 : ℝ), 2].getD (i + 1) 0)) / 2))))).sum
        / ((1 : ℕ) : ℝ) :=
  (C2_abdi_ranaldo_formula [1, 2] [1, 2] [1, 2] rfl rfl).1 (by decide)

/-- C1: with equal-length inputs of length n and a window size w with
0 < w < n, both rolling-window runners return (without raising) a sequence
of length exactly n whose first w-1 entries are NaN and whose entry at index
i+w-1, for each 0 <= i <= n-w, is the point estimator applied to the slice
[i, i+w) of the inputs (right-edge alignment, n-w+1 computed values). -/
theorem C1_window_right_edge_alignment
    (highs lows closes : List ℝ) (window : ℤ)
    (hl : highs.length = lows.length) (hc : lows.length = closes.length)
    (hw : 0 < window) (hn : window < (highs.length : ℤ)) :
    ∃ ar cs,
      abdi_ranaldo_estimator_window highs lows closes window = Except.ok ar ∧
      corwin_schultz_estimator_window highs lows window = Except.ok cs ∧
      ar.length = highs.length ∧ cs.length = highs.length ∧
      (∀ j < window.toNat - 1,
        ar.getD j (some 0) = none ∧ cs.getD j (some 0) = none) ∧
      (∀ i ≤ highs.length - window.toNat,
        ar.getD (i + window.toNat - 1) none
          = some (abdi_ranaldo_estimator
              ((highs.drop i).take window.toNat)
              ((lows.drop i).take window.toNat)
              ((closes.drop i).take window.toNat)) ∧
        cs.getD (i + window.toNat - 1) none
          = corwin_schultz_estimator
              ((highs.drop i).take window.toNat)
              ((lows.drop i).take window.toNat)) := by
  have hw1 : 1 ≤ window.toNat := by omega
  have hwn : window.toNat < highs.length := by omega
  refine ⟨List.replicate (window.toNat - 1) none ++
      (List.range (highs.length - window.toNat + 1)).map
        (fun i => some (abdi_ranaldo_estimator
          ((highs.drop i).take window.toNat)
          ((lows.drop i).take window.toNat)
          ((closes.drop i).take window.toNat))),
    List.replicate (window.toNat - 1) none ++
      (List.range (highs.length - window.toNat + 1)).map
        (fun i => corwin_schultz_estimator
          ((highs.drop i).take window.toNat)
          ((lows.drop i).take window.toNat)),
    ?_, ?_, ?_, ?_, ?_, ?_⟩
  · simp only [abdi_ranaldo_estimator_window]
    rw [if_neg (not_not.mpr ⟨hl, hc⟩), if_neg (by omega), if_neg (by omega)]
  · simp only [corwin_schultz_estimator_window]
    rw [if_neg (not_not.mpr hl), if_neg (by omega), if_neg (by omega)]
  · simp only [List.length_append, List.length_replicate, List.length_map,
      List.length_range]
    omega
  · simp only [List.length_append, List.length_replicate, List.length_map,
      List.length_range]
    omega
  · intro j hj
    constructor <;>
    · rw [List.getD_eq_getElem _ _
        (by simp only [List.length_append, List.length_replicate,
          List.length_map, List.length_range]; omega),
        List.getElem_append_left (by simp only [List.length_replicate]; omega)]
      simp
  · intro i hi
    constructor <;>
    · rw [List.getD_eq_getElem _ _
        (by simp only [List.length_append, List.length_replicate,
          List.length_map, List.length_range]; omega),
        List.getElem_append_right (by simp only [List.length_replicate]; omega)]
      simp only [List.getElem_map, List.getElem_range, List.length_replicate]
      rw [show i + window.toNat - 1 - (window.toNat - 1) = i from by omega]

/-- Closed instance of `C1_window_right_edge_alignment` on a three-point
series with window 2. -/
theorem C1_window_right_edge_alignment_witness :
    ∃ ar cs,
      abdi_ranaldo_estimator_window [1, 2, 3] [1, 2, 3] [1, 2, 3] 2
        = Except.ok ar ∧
      corwin_schultz_estimator_window [1, 2, 3] [1, 2, 3] 2 = Except.ok cs ∧
      ar.length = 3 ∧ cs.length = 3 ∧
      (∀ j < 1, ar.getD j (some 0) = none ∧ cs.getD j (some 0) = none) ∧
      (∀ i ≤ 1,
        ar.getD (i + 1) none
          = some (abdi_ranaldo_estimator
              (([1, 2, 3].drop i).take 2) (([1, 2, 3].drop i).take 2)
              (([1, 2, 3].drop i).take 2)) ∧
        cs.getD (i + 1) none
          = corwin_schultz_estimator
              (([1, 2, 3].drop i).take 2) (([1, 2, 3].drop i).take 2)) :=
  C1_window_right_edge_alignment [1, 2, 3] [1, 2, 3] [1, 2, 3] 2 rfl rfl
    (by decide) (by decide)

/-- The Abdi-Ranaldo estimate is a mean of square roots, hence nonnegative on
every input. -/
theorem abdi_ranaldo_nonneg (highs lows closes : List ℝ) :
    0 ≤ abdi_ranaldo_estimator highs lows closes := by
  simp only [abdi_ranaldo_estimator]
  split
  · apply div_nonneg _ (Nat.cast_nonneg _)
    apply List.sum_nonneg
    intro x hx
    obtain ⟨c, -, rfl⟩ := List.mem_map.mp hx
    exact Real.sqrt_nonneg _
  · exact le_rfl

/-- Counterexample to C7 as stated: the one-observation series with
high = low = 1 is finite, positive and well-formed (equal lengths), yet the
Corwin-Schultz estimator returns NaN (`none`, the `np.nanmean` of an empty
pair list) — not a value that is >= 0. -/
theorem C7_counterexample_short_series :
    corwin_schultz_estimator [1] [1] = none := rfl

/-- C7 amended: for finite, well-formed inputs (positive highs, lows, closes
of equal length) with at least two observations, the Abdi-Ranaldo estimate is
>= 0 and the Corwin-Schultz estimate is a defined value >= 0. (With fewer
than two observations Abdi-Ranaldo still returns 0, but Corwin-Schultz
returns NaN, which is why the two-observation floor is needed.) -/
theorem C7_estimates_nonneg (highs lows closes : List ℝ)
    (_hh : ∀ x ∈ highs, 0 < x) (_hl : ∀ x ∈ lows, 0 < x)
    (_hc : ∀ x ∈ closes, 0 < x)
    (hlen1 : lows.length = highs.length) (hlen2 : closes.length = highs.length)
    (hn : 2 ≤ highs.length) :
    0 ≤ abdi_ranaldo_estimator highs lows closes ∧
    ∃ v, corwin_schultz_estimator highs lows = some v ∧ 0 ≤ v := by
  refine ⟨abdi_ranaldo_nonneg highs lows closes, ?_⟩
  simp only [corwin_schultz_estimator, nanmean]
  rw [if_neg (by
    simp only [List.isEmpty_eq_true, ← List.length_eq_zero, List.length_map,
      List.length_zipWith, List.length_dropLast, List.length_tail]
    omega)]
  refine ⟨_, rfl, ?_⟩
  apply div_nonneg _ (Nat.cast_nonneg _)
  apply List.sum_nonneg
  intro x hx
  obtain ⟨c, -, rfl⟩ := List.mem_map.mp hx
  by_cases hcneg : c < 0
  · rw [if_pos hcneg]
  · rw [if_neg hcneg]
    exact le_of_not_lt hcneg

/-- Closed instance of `C7_estimates_nonneg` on a two-point series. -/
theorem C7_estimates_nonneg_witness :
    0 ≤ abdi_ranaldo_estimator [1, 1] [1, 1] [1, 1] ∧
    ∃ v, corwin_schultz_estimator [1, 1] [1, 1] = some v ∧ 0 ≤ v :=
  C7_estimates_nonneg [1, 1] [1, 1] [1, 1]
    (by simp) (by simp) (by simp) rfl rfl (by decide)

/-- The single-pair Corwin-Schultz alpha term of liq_model.py line 71, with
beta = x^2 + x^2 and gamma = y^2, is strictly positive whenever
0 < x and 0 <= y <= x. -/
theorem cs_alpha_pos_of_pos {x y : ℝ} (hx : 0 < x) (hy : 0 ≤ y) (hxy : y ≤ x) :
    0 < (Real.sqrt 2 * Real.sqrt (x ^ 2 + x ^ 2) - Real.sqrt (x ^ 2 + x ^ 2))
        / (3 - 2 * Real.sqrt 2) - Real.sqrt (y ^ 2 / (3 - 2 * Real.sqrt 2)) := by
  have hs2 : Real.sqrt 2 ^ 2 = 2 := Real.sq_sqrt (by norm_num)
  have hs0 : (0 : ℝ) ≤ Real.sqrt 2 := Real.sqrt_nonneg 2
  have hs1 : 1 < Real.sqrt 2 := by nlinarith
  have hd0 : (3 : ℝ) - 2 * Real.sqrt 2 = (Real.sqrt 2 - 1) ^ 2 := by nlinarith
  have hB : Real.sqrt (x ^ 2 + x ^ 2) = Real.sqrt 2 * x := by
    rw [show x ^ 2 + x ^ 2 = (Real.sqrt 2 * x) ^ 2 from by rw [mul_pow, hs2]; ring]
    exact Real.sqrt_sq (mul_nonneg hs0 hx.le)
  have hC : Real.sqrt (y ^ 2 / (3 - 2 * Real.sqrt 2)) = y / (Real.sqrt 2 - 1) := by
    rw [hd0, show y ^ 2 / (Real.sqrt 2 - 1) ^ 2 = (y / (Real.sqrt 2 - 1)) ^ 2 from by
      rw [div_pow]]
    exact Real.sqrt_sq (div_nonneg hy (by linarith))
  rw [hB, hC, hd0, sub_pos, div_lt_div_iff₀ (by linarith) (pow_pos (by linarith) 2)]
  have hyx2 : y < Real.sqrt 2 * x := by nlinarith [mul_pos (sub_pos.mpr hs1) hx]
  nlinarith [mul_lt_mul_of_pos_right hyx2 (pow_pos (sub_pos.mpr hs1) 2)]

theorem cs_alpha_neg_of_nonpos {x y : ℝ} (hx : x ≤ 0) (hy : y ≤ 0)
    (hlt : y < Real.sqrt 2 * x) :
    (Real.sqrt 2 * Real.sqrt (x ^ 2 + x ^ 2) - Real.sqrt (x ^ 2 + x ^ 2))
        / (3 - 2 * Real.sqrt 2) - Real.sqrt (y ^ 2 / (3 - 2 * Real.sqrt 2)) < 0 := by
  have hs2 : Real.sqrt 2 ^ 2 = 2 := Real.sq_sqrt (by norm_num)
  have hs0 : (0 : ℝ) ≤ Real.sqrt 2 := Real.sqrt_nonneg 2
  have hs1 : 1 < Real.sqrt 2 := by nlinarith
  have hd0 : (3 : ℝ) - 2 * Real.sqrt 2 = (Real.sqrt 2 - 1) ^ 2 := by nlinarith
  have hB : Real.sqrt (x ^ 2 + x ^ 2) = -(Real.sqrt 2 * x) := by
    rw [show x ^ 2 + x ^ 2 = (-(Real.sqrt 2 * x)) ^ 2 from by
      rw [neg_pow, mul_pow, hs2]; ring]
    exact Real.sqrt_sq (neg_nonneg.mpr (by nlinarith [mul_nonneg hs0 (neg_nonneg.mpr hx)]))
  have hC : Real.sqrt (y ^ 2 / (3 - 2 * Real.sqrt 2)) = -y / (Real.sqrt 2 - 1) := by
    rw [hd0, show y ^ 2 / (Real.sqrt 2 - 1) ^ 2 = (-y / (Real.sqrt 2 - 1)) ^ 2 from by
      rw [div_pow, neg_pow]; ring_nf]
    exact Real.sqrt_sq (div_nonneg (neg_nonneg.mpr hy) (by linarith))
  rw [hB, hC, hd0, sub_neg, div_lt_div_iff₀ (pow_pos (by linarith) 2) (by linarith)]
  nlinarith [mul_lt_mul_of_pos_right (neg_lt_neg hlt) (pow_pos (sub_pos.mpr hs1) 2)]

/-- Counterexample to C8 as stated: for the two bars (high, low) = (2, 1)
and (2, 1) — identical high/low pairs across both intervals — the
Corwin-Schultz estimate is strictly positive, not 0 (the single pair's alpha
is about ln 2, giving an estimate of about 2/3). -/
theorem C8_counterexample_flat_pair_positive :
    corwin_schultz_estimator [2, 2] [1, 1] ≠ some 0 := by
  have hx : 0 < Real.log (2 / (1 + TOL)) := Real.log_pos (by norm_num [TOL])
  have hy : 0 < Real.log (2 / (1 + TOL + TOL)) := Real.log_pos (by norm_num [TOL])
  have hxy : Real.log (2 / (1 + TOL + TOL)) ≤ Real.log (2 / (1 + TOL)) :=
    Real.log_le_log (by norm_num [TOL]) (by
      rw [div_le_div_iff₀ (by norm_num [TOL]) (by norm_num [TOL])]
      norm_num [TOL])
  have halpha := cs_alpha_pos_of_pos hx hy.le hxy
  have he := Real.one_lt_exp_iff.mpr halpha
  simp only [corwin_schultz_estimator, nanmean]
  simp
  refine ⟨div_nonneg (by linarith) (by positivity), sub_ne_zero.mpr (ne_of_gt he),
    ne_of_gt (by positivity)⟩

/-- C8 amended: the Corwin-Schultz estimate on two bars with identical
high/low pairs is 0 when additionally the bars have zero range (high = low),
provided the common price c is at least 1e-6 — comfortably above the 1e-9
tolerance the implementation adds to the lows, so that the tolerance-induced
perturbation keeps the single pair's alpha nonpositive and the clamp yields
exactly 0. (With high > low, or with c at the scale of the tolerance itself,
the estimate is positive instead.) -/
theorem C8_flat_zero_range_estimate_zero (c : ℝ) (hc : 1e-6 ≤ c) :
    corwin_schultz_estimator [c, c] [c, c] = some 0 := by
  have hcpos : (0 : ℝ) < c := lt_of_lt_of_le (by norm_num) hc
  have hT : (0 : ℝ) < TOL := by norm_num [TOL]
  have h1 : (0 : ℝ) < c + TOL := by linarith
  have h2 : (0 : ℝ) < c + TOL + TOL := by linarith
  have hx0 : Real.log (c / (c + TOL)) ≤ 0 :=
    Real.log_nonpos (by positivity) (by rw [div_le_one h1]; linarith)
  have hy0 : Real.log (c / (c + TOL + TOL)) ≤ 0 :=
    Real.log_nonpos (by positivity) (by rw [div_le_one h2]; linarith)
  have hybound : Real.log (c / (c + TOL + TOL)) ≤ c / (c + TOL + TOL) - 1 :=
    Real.log_le_sub_one_of_pos (by positivity)
  have hxbound : 1 - (c + TOL) / c ≤ Real.log (c / (c + TOL)) := by
    have h := Real.log_le_sub_one_of_pos (show (0 : ℝ) < (c / (c + TOL))⁻¹ by positivity)
    rw [Real.log_inv, inv_div] at h
    linarith
  have hs2 : Real.sqrt 2 ^ 2 = 2 := Real.sq_sqrt (by norm_num)
  have hs0 : (0 : ℝ) ≤ Real.sqrt 2 := Real.sqrt_nonneg 2
  have hs15 : Real.sqrt 2 ≤ 3 / 2 := by nlinarith
  have hmid : c / (c + TOL + TOL) - 1 < Real.sqrt 2 * (1 - (c + TOL) / c) := by
    have e1 : c / (c + TOL + TOL) - 1 = -(TOL + TOL) / (c + TOL + TOL) := by
      field_simp
      ring
    have e2 : Real.sqrt 2 * (1 - (c + TOL) / c) = -(Real.sqrt 2 * TOL) / c := by
      field_simp
    rw [e1, e2, div_lt_div_iff₀ h2 hcpos]
    have hsc : Real.sqrt 2 * c ≤ 3 / 2 * c := mul_le_mul_of_nonneg_right hs15 hcpos.le
    simp only [TOL]
    nlinarith [hsc, hs15, hs0, hc, hcpos]
  have hlt : Real.log (c / (c + TOL + TOL))
      < Real.sqrt 2 * Real.log (c / (c + TOL)) := by
    have h3 : Real.sqrt 2 * (1 - (c + TOL) / c)
        ≤ Real.sqrt 2 * Real.log (c / (c + TOL)) :=
      mul_le_mul_of_nonneg_left hxbound hs0
    linarith
  have halpha := cs_alpha_neg_of_nonpos hx0 hy0 hlt
  have he := Real.exp_lt_one_iff.mpr halpha
  simp [corwin_schultz_estimator, nanmean]
  intro h0
  exact absurd h0 (not_le.mpr (div_neg_of_neg_of_pos (by linarith) (by positivity)))

/-- Closed instance of `C8_flat_zero_range_estimate_zero` at a common price
of 1. -/
theorem C8_flat_zero_range_estimate_zero_witness :
    corwin_schultz_estimator [1, 1] [1, 1] = some 0 :=
  C8_flat_zero_range_estimate_zero 1 (by norm_num)

/-- C10: the direction-dependent Black-Scholes operations assign their
result only under the `"C"` and `"P"` branches; any other option-type tag
leaves the result unassigned (an `UnboundLocalError` at return, modelled as
`none`), while for `"C"` or `"P"` a value is always returned. -/
theorem C10_unknown_option_type_errors
    (S K T R sigma size : ℝ) (option_type : String) :
    (option_type ≠ "C" → option_type ≠ "P" →
      BlackScholes.price S K T R sigma option_type = none ∧
      BlackScholes.delta S K T R sigma option_type = none ∧
      BlackScholes.theta S K T R sigma option_type = none ∧
      BlackScholes.rho S K T R sigma option_type = none ∧
      BlackScholes.option_value_expiry S K size option_type = none) ∧
    (option_type = "C" ∨ option_type = "P" →
      (BlackScholes.price S K T R sigma option_type).isSome = true ∧
      (BlackScholes.delta S K T R sigma option_type).isSome = true ∧
      (BlackScholes.theta S K T R sigma option_type).isSome = true ∧
      (BlackScholes.rho S K T R sigma option_type).isSome = true ∧
      (BlackScholes.option_value_expiry S K size option_type).isSome = true) := by
  constructor
  · intro h1 h2
    refine ⟨?_, ?_, ?_, ?_, ?_⟩ <;>
      simp [BlackScholes.price, BlackScholes.delta, BlackScholes.theta,
        BlackScholes.rho, BlackScholes.option_value_expiry, h1, h2]
  · rintro (rfl | rfl) <;>
      refine ⟨?_, ?_, ?_, ?_, ?_⟩ <;>
        simp [BlackScholes.price, BlackScholes.delta, BlackScholes.theta,
          BlackScholes.rho, BlackScholes.option_value_expiry]

/-- Closed instance of `C10_unknown_option_type_errors`: the tag `"X"` gives
no result anywhere, the tag `"C"` always gives one. -/
theorem C10_unknown_option_type_errors_witness :
    (BlackScholes.price 1 1 1 1 1 "X" = none ∧
      BlackScholes.delta 1 1 1 1 1 "X" = none ∧
      BlackScholes.theta 1 1 1 1 1 "X" = none ∧
      BlackScholes.rho 1 1 1 1 1 "X" = none ∧
      BlackScholes.option_value_expiry 1 1 1 "X" = none) ∧
    ((BlackScholes.price 1 1 1 1 1 "C").isSome = true ∧
      (BlackScholes.delta 1 1 1 1 1 "C").isSome = true ∧
      (BlackScholes.theta 1 1 1 1 1 "C").isSome = true ∧
      (BlackScholes.rho 1 1 1 1 1 "C").isSome = true ∧
      (BlackScholes.option_value_expiry 1 1 1 "C").isSome = true) :=
  ⟨(C10_unknown_option_type_errors 1 1 1 1 1 1 "X").1 (by decide) (by decide),
   (C10_unknown_option_type_errors 1 1 1 1 1 1 "C").2 (Or.inl rfl)⟩

/-- C6: the code has no guard for degenerate inputs. At the failing input
S=100, K=100, T=0, R=0.05, sigma=0.2 the `gamma` formula divides by
`S * sigma * sqrt(T) = 0` and `d1` itself divides by `sigma * sqrt(T) = 0`:
in IEEE arithmetic the operations silently produce NaN/Inf, with no domain
error and no intrinsic-value fallback anywhere in `api.py` (this embedding
totalises real division, so the zero denominators exhibited here are the
Lean image of that silent NaN/Inf). -/
theorem C6_degenerate_input_division_by_zero :
    BlackScholes.gamma 100 100 0 0.05 0.2
      = BlackScholes.Np (BlackScholes.d1 100 100 0 0.05 0.2) / 0 ∧
    BlackScholes.d1 100 100 0 0.05 0.2
      = (Real.log (100 / 100) + (0.05 + 0.2 ^ 2 / 2) * 0) / 0 ∧
    (100 : ℝ) * 0.2 * Real.sqrt 0 = 0 := by
  refine ⟨?_, ?_, ?_⟩
  · simp [BlackScholes.gamma]
  · simp [BlackScholes.d1]
  · simp

/-- Symmetry of the standard normal distribution: the cumulative
distribution function satisfies Nc(x) + Nc(-x) = 1, since the density is
even and integrates to 1 over the whole line. -/
theorem Nc_add_Nc_neg (x : ℝ) : BlackScholes.Nc x + BlackScholes.Nc (-x) = 1 := by
  have hint : Integrable BlackScholes.Np :=
    ProbabilityTheory.integrable_gaussianPDFReal 0 1
  have hsym : ∀ t : ℝ, BlackScholes.Np (-t) = BlackScholes.Np t := by
    intro t
    simp only [BlackScholes.Np, ProbabilityTheory.gaussianPDFReal]
    ring_nf
  have h1 : BlackScholes.Nc (-x) = ∫ t in Set.Ioi x, BlackScholes.Np t := by
    rw [BlackScholes.Nc, ← integral_comp_neg_Ioi]
    simp only [hsym]
  rw [BlackScholes.Nc, h1,
    intervalIntegral.integral_Iic_add_Ioi hint.integrableOn hint.integrableOn]
  exact ProbabilityTheory.integral_gaussianPDFReal_eq_one 0 one_ne_zero

/-- C5: put-call parity. For every contract with positive S, K, T, sigma and
any rate R, the call price and put price returned by `BlackScholes.price`
satisfy call - put = S - K * exp(-R*T), exactly in real arithmetic. -/
theorem C5_put_call_parity (S K T R sigma : ℝ)
    (_hS : 0 < S) (_hK : 0 < K) (_hT : 0 < T) (_hsig : 0 < sigma) :
    ∃ c p, BlackScholes.price S K T R sigma "C" = some c ∧
      BlackScholes.price S K T R sigma "P" = some p ∧
      c - p = S - K * Real.exp (-R * T) := by
  have hC : BlackScholes.price S K T R sigma "C"
      = some (S * BlackScholes.Nc (BlackScholes.d1 S K T R sigma)
        - K * Real.exp (-R * T) * BlackScholes.Nc (BlackScholes.d2 S K T R sigma)) := by
    simp [BlackScholes.price]
  have hP : BlackScholes.price S K T R sigma "P"
      = some (K * Real.exp (-R * T) * BlackScholes.Nc (-BlackScholes.d2 S K T R sigma)
        - S * BlackScholes.Nc (-BlackScholes.d1 S K T R sigma)) := by
    simp [BlackScholes.price]
  refine ⟨_, _, hC, hP, ?_⟩
  have h1 := Nc_add_Nc_neg (BlackScholes.d1 S K T R sigma)
  have h2 := Nc_add_Nc_neg (BlackScholes.d2 S K T R sigma)
  linear_combination S * h1 - K * Real.exp (-R * T) * h2

/-- Closed instance of `C5_put_call_parity` at S = K = T = R = sigma = 1. -/
theorem C5_put_call_parity_witness :
    (0 : ℝ) < 1 ∧
    ∃ c p, BlackScholes.price 1 1 1 1 1 "C" = some c ∧
      BlackScholes.price 1 1 1 1 1 "P" = some p ∧
      c - p = 1 - 1 * Real.exp (-1 * 1) :=
  ⟨one_pos, C5_put_call_parity 1 1 1 1 1 one_pos one_pos one_pos one_pos⟩

end Claims
